import Mathlib

/-!
Verification development for the IFC Model Comparison Tool.

The Python sources under `src/` (core_ifc.py, geometry.py, diffing.py,
semantics.py, storey.py) are shallowly embedded below.  Conventions:

* Floating-point numbers are embedded as exact rationals (`ℚ`).
* A Python function that can raise is embedded with result type `PyResult`;
  `PyResult.exn` marks a raised exception.
* `None`-or-value results of total functions are embedded as `Option`.
* The Snapshot collaborator (ifcopenshell) is external; per the spec's
  collaborator contract (§6) `Snapshot.byId(id) -> Entity|absent`, entity
  lookup is embedded as an `Option`-returning function over a list of
  entities, and `Snapshot.byType` as a filter.
* The geometry kernel (trimesh / ifcopenshell.geom) is external.  A `Mesh`
  is embedded as the record of derived queries the core reads from it
  (bounds, centroid, extents, volume, area, watertightness), and the two
  surface samplers, the point norm and the external `dictdiffer.diff`
  routine are fields of a `GeomKernel` parameter.  The spec (§9) itself
  directs that the sampler be modelled as one capability with two
  selectable implementations.
-/

namespace IFCCompare

/-- Result of a Python call: a returned value, or a raised exception. -/
inductive PyResult (α : Type) where
  | ok (a : α)
  | exn
deriving DecidableEq, Repr

/-- A scalar attribute value as stored in a property/quantity set or a
graph node: Python str / number / bool / None. -/
inductive Attr where
  | str (s : String)
  | num (q : ℚ)
  | bool (b : Bool)
  | null
deriving DecidableEq, Repr

/-- A 3D vector with exact rational coordinates (embedding of a numpy
length-3 float array). -/
structure Vec3 where
  x : ℚ
  y : ℚ
  z : ℚ
deriving DecidableEq, Repr

def Vec3.sub (a b : Vec3) : Vec3 := ⟨a.x - b.x, a.y - b.y, a.z - b.z⟩

def Vec3.add (a b : Vec3) : Vec3 := ⟨a.x + b.x, a.y + b.y, a.z + b.z⟩

def Vec3.scale (c : ℚ) (a : Vec3) : Vec3 := ⟨c * a.x, c * a.y, c * a.z⟩

/-- Squared Euclidean norm of a vector (exact in `ℚ`). -/
def sqNorm (v : Vec3) : ℚ := v.x ^ 2 + v.y ^ 2 + v.z ^ 2

/-- `normGT v c` decides `‖v‖ > c` for the Euclidean norm without leaving
`ℚ`: since `Real.sqrt` is strictly monotone on nonnegatives,
`√(sqNorm v) > c ↔ c < 0 ∨ c² < sqNorm v`.  This embeds
`np.linalg.norm(v) > c` exactly (`normGT_iff_sqrt` below justifies it). -/
def normGT (v : Vec3) (c : ℚ) : Bool := decide (c < 0) || decide (c ^ 2 < sqNorm v)

/-- `np.allclose(a, b, rtol, atol)`: elementwise
`|a_i - b_i| ≤ atol + rtol * |b_i|`.  numpy's defaults are
`rtol = 1e-5`, `atol = 1e-8`; `diffing.check_if_element_moved` passes
`atol = 1e-4` and leaves `rtol` at its default. -/
def np_allclose (a b : Vec3) (rtol atol : ℚ) : Bool :=
  decide (|a.x - b.x| ≤ atol + rtol * |b.x|) &&
  decide (|a.y - b.y| ≤ atol + rtol * |b.y|) &&
  decide (|a.z - b.z| ≤ atol + rtol * |b.z|)

/-- Modelled from the spec: "approximately equal elementwise (absolute
tolerance 1e-4)" — a pure absolute-tolerance comparison, with no relative
term.  Used only to compare the spec's wording with the code's
`np.allclose` (which keeps numpy's default relative tolerance 1e-5). -/
def spec_approx_eq_abs (a b : Vec3) (atol : ℚ) : Bool :=
  decide (|a.x - b.x| ≤ atol) && decide (|a.y - b.y| ≤ atol) && decide (|a.z - b.z| ≤ atol)

/-- `np.round(q, decimals)` embedded as exact rational rounding to
`decimals` places (numpy's round-half-to-even on binary floats is
approximated by `round`; no claim depends on half-way cases). -/
def np_round (q : ℚ) (decimals : ℕ) : ℚ :=
  let m : ℚ := (10 : ℚ) ^ decimals
  (round (q * m) : ℤ) / m

/-- A triangulated mesh, embedded as the record of derived queries the
core reads from the geometry-kernel collaborator (spec §3, §6: "vertex/face
buffers plus derived queries (bounds, centroid, volume, area, ...)"). -/
structure Mesh where
  bounds_min : Vec3
  bounds_max : Vec3
  centroid : Vec3
  extents : Vec3
  obb_extents : Vec3
  volume : ℚ
  area : ℚ
  is_watertight : Bool
deriving DecidableEq, Repr

/-- The Python value held by a mesh variable in diffing.py / geometry.py:
`None` (initial value when a check is disabled), `False` (the
no-geometry sentinel returned by `generate_mesh_of_element`), or a
trimesh object. -/
inductive MeshVal where
  | pyNone
  | pyFalse
  | mesh (m : Mesh)
deriving DecidableEq, Repr

/-- Python truthiness of a mesh variable: `None` and `False` are falsy,
a trimesh object is truthy. -/
def MeshVal.truthy : MeshVal → Bool
  | .mesh _ => true
  | _ => false

/-- Python `==` on two mesh variables as used on line 148 of diffing.py
(`not (mesh1 == mesh2)`), reached only when at least one side is the
`False` sentinel: `False == False` is true, `False == <mesh>` is false,
`None == None` is true; two trimesh objects compare by identity and are
distinct there (unreachable in that branch). -/
def meshValBeq : MeshVal → MeshVal → Bool
  | .pyNone, .pyNone => true
  | .pyFalse, .pyFalse => true
  | _, _ => false

/-- Opaque payload of the external `dictdiffer.diff` routine. -/
abbrev DiffList := List (String × Attr × Attr)

/-- External geometry-kernel / library capabilities used by the core:
the two surface samplers (spec §9: "model the sampler as one capability
with two selectable implementations"), the point norm `np.linalg.norm`
applied inside the Hausdorff loops, and `dictdiffer.diff`.  Each sampler
depends only on its own mesh and the sampling parameters, exactly as in
the source (`sample_surface_even(mesh, count, seed=0)` and
`sample_mesh_with_grid(mesh, count, oversample)`). -/
structure GeomKernel where
  sample_surface_even : Mesh → ℕ → List Vec3
  sample_mesh_with_grid : Mesh → ℕ → ℕ → List Vec3
  norm : Vec3 → ℚ
  dictdiff : List (String × Attr) → List (String × Attr) → DiffList

/-- One level of the upward spatial-containment chain of an entity
(`ifcopenshell.util.element.get_container`, iterated). -/
structure SpatialNode where
  name : Option String
  isStorey : Bool
deriving DecidableEq, Repr

/-- One IfcProperty of a property set: `prop.Name` and
`prop.NominalValue.wrappedValue` (absent when `NominalValue` is falsy). -/
structure IfcProperty where
  name : String
  nominalValue : Option Attr
deriving DecidableEq, Repr

/-- An IfcPropertySet reached through `IsDefinedBy`. -/
structure IfcPropertySet where
  globalId : String
  name : Option String
  hasProperties : List IfcProperty
deriving DecidableEq, Repr

/-- The quantity kinds dispatched in semantics.py; `other` covers
quantity classes not in the supported list (skipped by the code). -/
inductive QuantityKind where
  | length
  | area
  | count
  | time
  | volume
  | weight
  | other
deriving DecidableEq, Repr

/-- One quantity of an IfcElementQuantity: name, kind and scalar value. -/
structure IfcQuantity where
  name : String
  kind : QuantityKind
  value : ℚ
deriving DecidableEq, Repr

/-- An IfcElementQuantity reached through `IsDefinedBy`. -/
structure IfcQuantitySet where
  globalId : String
  name : Option String
  quantities : List IfcQuantity
deriving DecidableEq, Repr

/-- A decomposition child/parent reference (`RelatedObjects` /
`RelatingObject` of an `IfcRelAggregates`). -/
structure EntityRef where
  globalId : String
  name : Option String
  ifcType : String
deriving DecidableEq, Repr

/-- One IFC entity, carrying exactly the data the embedded core reads:
identifier, declared type, display name, the mesh the geometry kernel
would produce for it (`none` = no Representation, or `create_shape`
failure — both yield the `False` sentinel in geometry.py), its
property/quantity sets, decomposition children/parents and the upward
spatial-containment chain (nearest container first). -/
structure IfcEntity where
  globalId : String
  ifcType : String
  name : Option String
  repMesh : Option Mesh
  psets : List IfcPropertySet
  qsets : List IfcQuantitySet
  children : List EntityRef
  parents : List EntityRef
  containers : List SpatialNode
deriving DecidableEq, Repr

/-- A Snapshot: one loaded model revision, an immutable collection of
entities. -/
abbrev IfcModel := List IfcEntity

/-- `model.by_guid(guid)`: entity lookup, absent for an unknown id (spec
§6 collaborator contract `Snapshot.byId(id) -> Entity|absent`; cf.
`core_ifc.guid_exists`, which converts any lookup failure to `False`). -/
def by_guid (model : IfcModel) (guid : String) : Option IfcEntity :=
  model.find? (fun e => e.globalId == guid)

/-- `model.by_type(ifc_type)`: all entities of the given declared type
(subtype resolution is the collaborator's concern; the claims quantify
over one fixed type filter at a time). -/
def by_type (model : IfcModel) (ifc_type : String) : List IfcEntity :=
  model.filter (fun e => e.ifcType == ifc_type)

/-- `{elem.GlobalId for elem in model.by_type(ifc_type)}` — the id set of
one snapshot for one type filter. -/
def guidsOfType (model : IfcModel) (ifc_type : String) : Finset String :=
  ((by_type model ifc_type).map (fun e => e.globalId)).toFinset

/-- core_ifc.get_added_element_guids: `guids_v2 - guids_v1` (the Python
code materialises the set as a list in arbitrary set order; the result is
embedded as the underlying finite set). -/
def get_added_element_guids (model1 model2 : IfcModel) (ifc_type : String) : Finset String :=
  guidsOfType model2 ifc_type \ guidsOfType model1 ifc_type

/-- core_ifc.get_deleted_element_guids: `guids_v1 - guids_v2`. -/
def get_deleted_element_guids (model1 model2 : IfcModel) (ifc_type : String) : Finset String :=
  guidsOfType model1 ifc_type \ guidsOfType model2 ifc_type

/-- core_ifc.get_shared_element_guids: `list(guids_v1 & guids_v2)`
followed by `.sort()` — the intersection as a sorted list. -/
def get_shared_element_guids (model1 model2 : IfcModel) (ifc_type : String) : List String :=
  (guidsOfType model1 ifc_type ∩ guidsOfType model2 ifc_type).sort (· ≤ ·)

/-- core_ifc.guid_exists: true iff lookup succeeds (the try/except in the
source converts any failure to `False`). -/
def guid_exists (model : IfcModel) (guid : String) : Bool :=
  (by_guid model guid).isSome

/-! ### geometry.py -/

/-- geometry.generate_mesh_of_element: the `False` sentinel when the
element has no Representation or `create_shape` fails, otherwise the
kernel-produced trimesh. -/
def generate_mesh_of_element (e : IfcEntity) : MeshVal :=
  match e.repMesh with
  | none => .pyFalse
  | some m => .mesh m

/-- Sort the three components of a vector ascending (`np.sort` on a
length-3 array). -/
def sort3 (v : Vec3) : ℚ × ℚ × ℚ :=
  let a := min v.x (min v.y v.z)
  let c := max v.x (max v.y v.z)
  (a, v.x + v.y + v.z - a - c, c)

/-- An association list with string keys, Python-dict style (unique keys,
insertion order preserved). -/
abbrev AttrDict := List (String × Attr)

/-- Python dict assignment `d[k] = v`: overwrite in place if the key
exists, else append. -/
def dictInsert {α : Type} (d : List (String × α)) (k : String) (v : α) : List (String × α) :=
  if d.any (fun p => p.1 == k) then
    d.map (fun p => if p.1 == k then (k, v) else p)
  else d ++ [(k, v)]

/-- Build a dict from a list of key/value pairs by repeated assignment. -/
def mkDict {α : Type} (l : List (String × α)) : List (String × α) :=
  l.foldl (fun d p => dictInsert d p.1 p.2) []

/-- Python dict equality (`==`): order-independent — same keys, and the
same value at every key. -/
def attrDictEq (a b : AttrDict) : Bool :=
  (a.all fun p => (b.find? (fun q => q.1 == p.1)).map Prod.snd == some p.2) &&
  (b.all fun p => (a.find? (fun q => q.1 == p.1)).map Prod.snd == some p.2)

/-- The geometric-descriptor dictionary geometry.extract_geometric_properties
builds for a valid mesh: centroid coordinates, sorted AABB extents,
sorted OBB extents, volume, surface area and the watertight flag, numeric
fields rounded to 3 decimals. -/
def geoDict (m : Mesh) : AttrDict :=
  let aabb := sort3 m.extents
  let obb := sort3 m.obb_extents
  mkDict
    [("X Center Coordinate", .num (np_round m.centroid.x 3)),
     ("Y Center Coordinate", .num (np_round m.centroid.y 3)),
     ("Z Center Coordinate", .num (np_round m.centroid.z 3)),
     ("Axis Aligned Bounding Box Dimension 1", .num (np_round aabb.1 3)),
     ("Axis Aligned Bounding Box Dimension 2", .num (np_round aabb.2.1 3)),
     ("Axis Aligned Bounding Box Dimension 3", .num (np_round aabb.2.2 3)),
     ("OBB Dimension 1", .num (np_round obb.1 3)),
     ("OBB Dimension 2", .num (np_round obb.2.1 3)),
     ("OBB Dimension 3", .num (np_round obb.2.2 3)),
     ("Volume", .num (np_round m.volume 3)),
     ("Surface Area", .num (np_round m.area 3)),
     ("Is Water_Tight", .bool m.is_watertight)]

/-- geometry.extract_geometric_properties: `None` for the `False`
sentinel (`if mesh == False: return None`); the descriptor dict for a
mesh; a Python `None` argument would fall through the sentinel test and
raise on `None.centroid`. -/
def extract_geometric_properties (mv : MeshVal) : PyResult (Option AttrDict) :=
  match mv with
  | .pyFalse => .ok none
  | .pyNone => .exn
  | .mesh m => .ok (some (geoDict m))

/-- Minimum of a list of rationals; `none` for the empty list (Python
`min` of an empty sequence raises — the caller turns `none` into an
exception). -/
def listMin : List ℚ → Option ℚ
  | [] => none
  | a :: l =>
    match listMin l with
    | none => some a
    | some b => some (min a b)

/-- Maximum of a list of rationals; `none` for the empty list (`np.max`
of an empty array raises). -/
def listMax : List ℚ → Option ℚ
  | [] => none
  | a :: l =>
    match listMax l with
    | none => some a
    | some b => some (max a b)

/-- For one sample point `p` of the source mesh, the distance to the
closest sample of the target mesh:
`min(np.linalg.norm(samples_tgt - point, axis=1))`. -/
def closest_dist (K : GeomKernel) (tgt : List Vec3) (p : Vec3) : Option ℚ :=
  listMin (tgt.map (fun q => K.norm (Vec3.sub q p)))

/-- One directed loop of the Hausdorff computation: for each point of
`src`, the distance to the closest sample of `tgt`.  `none` when `src` is
nonempty and `tgt` empty (Python `min` raises there). -/
def dirDists (K : GeomKernel) (src tgt : List Vec3) : Option (List ℚ) :=
  src.mapM (closest_dist K tgt)

/-- geometry.hausdorff_distance_between_meshes: `None` when either mesh
argument is falsy (the no-geometry sentinel `False`, or the `None` a
disabled geometry check leaves behind); otherwise sample both surfaces
with the selected strategy and return the maximum over both directed
nearest-neighbour loops.  `np.max([])` / `min(empty)` raise when a sample
set is empty. -/
def hausdorff_distance_between_meshes (K : GeomKernel) (mesh1 mesh2 : MeshVal)
    (sampling_count over_sampling : ℕ) (use_trimesh_sampling : Bool) :
    PyResult (Option ℚ) :=
  match mesh1, mesh2 with
  | .mesh m1, .mesh m2 =>
    let samples_mesh1 := if use_trimesh_sampling then K.sample_surface_even m1 sampling_count
      else K.sample_mesh_with_grid m1 sampling_count over_sampling
    let samples_mesh2 := if use_trimesh_sampling then K.sample_surface_even m2 sampling_count
      else K.sample_mesh_with_grid m2 sampling_count over_sampling
    match dirDists K samples_mesh1 samples_mesh2, dirDists K samples_mesh2 samples_mesh1 with
    | some d1, some d2 =>
      match listMax (d1 ++ d2) with
      | some h => .ok (some h)
      | none => .exn
    | _, _ => .exn
  | _, _ => .ok none

/-- Default `tolerance` of geometry.are_meshes_different (`1e-2`). -/
def default_shape_tolerance : ℚ := 1 / 100

/-- geometry.are_meshes_different: `False` when the Hausdorff distance is
`None`, else `distance > tolerance` (strict). -/
def are_meshes_different (K : GeomKernel) (mesh1 mesh2 : MeshVal)
    (use_trimesh_sampling : Bool) (sampling_count over_sampling : ℕ)
    (tolerance : ℚ) : PyResult Bool :=
  match hausdorff_distance_between_meshes K mesh1 mesh2 sampling_count over_sampling
      use_trimesh_sampling with
  | .exn => .exn
  | .ok none => .ok false
  | .ok (some d) => .ok (decide (tolerance < d))

/-! ### semantics.py -/

/-- A NetworkX-style directed attributed graph: nodes keyed by string
with an attribute dict each, and unlabeled directed edges.  Lists keep
insertion order; node keys are unique (`add_node` merges). -/
structure DiGraph where
  nodes : List (String × AttrDict)
  edges : List (String × String)
deriving DecidableEq, Repr

/-- The empty graph `nx.DiGraph()`. -/
def DiGraph.empty : DiGraph := ⟨[], []⟩

/-- `graph.add_node(key, **attrs)`: update the attribute dict of an
existing node (dict update), or append a fresh node. -/
def DiGraph.add_node (g : DiGraph) (key : String) (attrs : AttrDict) : DiGraph :=
  if g.nodes.any (fun p => p.1 == key) then
    { g with nodes := g.nodes.map (fun p =>
        if p.1 == key then (p.1, attrs.foldl (fun d q => dictInsert d q.1 q.2) p.2) else p) }
  else { g with nodes := g.nodes ++ [(key, attrs)] }

/-- `graph.add_edge(u, v)`: create missing endpoints with empty attrs,
then add the edge if absent. -/
def DiGraph.add_edge (g : DiGraph) (u v : String) : DiGraph :=
  let g1 := if g.nodes.any (fun p => p.1 == u) then g
    else { g with nodes := g.nodes ++ [(u, ([] : AttrDict))] }
  let g2 := if g1.nodes.any (fun p => p.1 == v) then g1
    else { g1 with nodes := g1.nodes ++ [(v, ([] : AttrDict))] }
  if g2.edges.contains (u, v) then g2 else { g2 with edges := g2.edges ++ [(u, v)] }

/-- The attribute dict stored at a node key (empty if absent). -/
def DiGraph.nodeAttrs (g : DiGraph) (key : String) : AttrDict :=
  ((g.nodes.find? (fun p => p.1 == key)).map Prod.snd).getD []

/-- networkx.utils.graphs_equal: equal node-key sets with equal attribute
dicts, and equal edge sets — all order-independent dict comparisons. -/
def graphs_equal (g1 g2 : DiGraph) : Bool :=
  (g1.nodes.all fun p =>
    match g2.nodes.find? (fun q => q.1 == p.1) with
    | some q => attrDictEq p.2 q.2
    | none => false) &&
  (g2.nodes.all fun p => g1.nodes.any (fun q => q.1 == p.1)) &&
  (g1.edges.all fun e => g2.edges.contains e) &&
  (g2.edges.all fun e => g1.edges.contains e)

/-- `elem.Name if elem.Name else "un-named"`: Python falsiness makes both
a missing and an empty name fall back. -/
def displayName (n : Option String) : Attr :=
  match n with
  | some s => if s == "" then .str "un-named" else .str s
  | none => .str "un-named"

/-- A possibly-`None` Python string stored as a node attribute
(`Name=pset.Name`). -/
def attrOfOptStr (n : Option String) : Attr :=
  match n with
  | some s => .str s
  | none => .null

/-- `pset_data`: one dict entry per property, holding the wrapped nominal
value or `None`. -/
def build_pset_data (props : List IfcProperty) : List (String × Option Attr) :=
  props.foldl (fun d p => dictInsert d p.name p.nominalValue) []

/-- `clean_pset_data`: keep only properties with an actual value. -/
def clean_pset (d : List (String × Option Attr)) : AttrDict :=
  d.filterMap (fun p => p.2.map (fun v => (p.1, v)))

/-- `quantity_data`: one entry per supported quantity kind, value rounded
to 4 decimals; unsupported kinds are skipped. -/
def build_qty_data (qs : List IfcQuantity) : AttrDict :=
  qs.foldl (fun d q =>
    match q.kind with
    | .other => d
    | _ => dictInsert d q.name (.num (np_round q.value 4))) []

/-- semantics.create_element_graph: the empty graph for a missing entity;
otherwise the root node (display name, declared type, spatial-container
name with fallback "No Parent"), one node per property set (Name, type,
non-null values), one per quantity set (name, type, rounded quantities),
one per decomposition child (`relation="Child"`) and parent
(`Relation="Parent"`), each wired root→node. -/
def create_element_graph (element_guid : String) (model : IfcModel) : DiGraph :=
  match by_guid model element_guid with
  | none => DiGraph.empty
  | some elem =>
    let level : Attr :=
      match elem.containers with
      | [] => .str "No Parent"
      | c :: _ => attrOfOptStr c.name
    let g1 := DiGraph.empty.add_node element_guid
      (mkDict [("Name", displayName elem.name), ("IfcType", .str elem.ifcType),
               ("Space_container", level)])
    let g2 := elem.psets.foldl (fun g pset =>
      let attrs := mkDict ([("Name", attrOfOptStr pset.name), ("type", .str "IfcPropertySet")]
        ++ clean_pset (build_pset_data pset.hasProperties))
      (g.add_node pset.globalId attrs).add_edge element_guid pset.globalId) g1
    let g3 := elem.qsets.foldl (fun g qset =>
      let attrs := mkDict ([("name", attrOfOptStr qset.name), ("type", .str "IfcElementQuantity")]
        ++ build_qty_data qset.quantities)
      (g.add_node qset.globalId attrs).add_edge element_guid qset.globalId) g2
    let g4 := elem.children.foldl (fun g ch =>
      (g.add_node ch.globalId
        (mkDict [("Name", displayName ch.name), ("IfcType", .str ch.ifcType),
                 ("relation", .str "Child")])).add_edge element_guid ch.globalId) g3
    let g5 := elem.parents.foldl (fun g pr =>
      (g.add_node pr.globalId
        (mkDict [("Name", displayName pr.name), ("IfcType", .str pr.ifcType),
                 ("Relation", .str "Parent")])).add_edge element_guid pr.globalId) g4
    g5

/-! ### diffing.py -/

/-- Python `==` on the two results of `extract_geometric_properties`
(each a dict or `None`): `None == None` is true, `None == dict` false,
dicts compare order-independently. -/
def optDictBeq : Option AttrDict → Option AttrDict → Bool
  | none, none => true
  | some d1, some d2 => attrDictEq d1 d2
  | _, _ => false

/-- The geometric step of diffing.is_element_modified: when both meshes
pass the `mesh1 != False and mesh2 != False` guard, compare the extracted
descriptor dicts (`not (geometry_data1 == geometry_data2)`); otherwise
compare the mesh variables themselves (`not (mesh1 == mesh2)`). -/
def geomCheckStep (mesh1 mesh2 : MeshVal) : PyResult Bool :=
  if mesh1 != MeshVal.pyFalse && mesh2 != MeshVal.pyFalse then
    match extract_geometric_properties mesh1, extract_geometric_properties mesh2 with
    | .ok d1, .ok d2 => .ok (!optDictBeq d1 d2)
    | _, _ => .exn
  else .ok (!meshValBeq mesh1 mesh2)

/-- diffing.is_element_modified: the boolean modification vector.  In
fixed order: if `check_semantic`, append `not graphs_equal(g1, g2)`; if
`geometry_check`, generate both meshes and append the geometric
comparison (a missing element raises on `None.Representation`); if
`check_shape`, append `are_meshes_different` on whatever the mesh
variables hold (still Python `None` when the geometry check was
disabled), at the default shape tolerance. -/
def is_element_modified (K : GeomKernel) (element_graph1 element_graph2 : DiGraph)
    (guid : String) (model1 model2 : IfcModel)
    (check_semantic geometry_check check_shape use_trimesh_sampling : Bool)
    (sampling_count over_sampling : ℕ) : PyResult (List Bool) :=
  let element1 := by_guid model1 guid
  let element2 := by_guid model2 guid
  let checks0 : List Bool :=
    if check_semantic then [!graphs_equal element_graph1 element_graph2] else []
  let geomStage : PyResult (List Bool × MeshVal × MeshVal) :=
    if geometry_check then
      match element1, element2 with
      | some e1, some e2 =>
        let mesh1 := generate_mesh_of_element e1
        let mesh2 := generate_mesh_of_element e2
        match geomCheckStep mesh1 mesh2 with
        | .ok b => .ok (checks0 ++ [b], mesh1, mesh2)
        | .exn => .exn
      | _, _ => .exn
    else .ok (checks0, .pyNone, .pyNone)
  match geomStage with
  | .exn => .exn
  | .ok (checks, mesh1, mesh2) =>
    if check_shape then
      match are_meshes_different K mesh1 mesh2 use_trimesh_sampling sampling_count
          over_sampling default_shape_tolerance with
      | .ok b => .ok (checks ++ [b])
      | .exn => .exn
    else .ok checks

/-- The existence loop of diffing.ClassifyChangesForGivenGuidList: each
requested guid goes to Deleted (only in v1), Added (only in v2) or Shared
(in both); unknown guids are dropped.  Input order is preserved. -/
def classifyExistence (model1 model2 : IfcModel) :
    List String → List String × List String × List String
  | [] => ([], [], [])
  | guid :: rest =>
    let (a, d, s) := classifyExistence model1 model2 rest
    let in_v1 := guid_exists model1 guid
    let in_v2 := guid_exists model2 guid
    if in_v1 && !in_v2 then (a, guid :: d, s)
    else if in_v2 && !in_v1 then (guid :: a, d, s)
    else if in_v1 && in_v2 then (a, d, guid :: s)
    else (a, d, s)

/-- The shared-guid loop of diffing.ClassifyChangesForGivenGuidList:
build both element graphs, run the boolean modification test and split
into (modified, unmodified) by `any(checks)`. -/
def classifyShared (K : GeomKernel) (model1 model2 : IfcModel)
    (check_semantics check_geometry check_shape use_trimesh_sampling : Bool)
    (sampling_count over_sampling : ℕ) :
    List String → PyResult (List String × List String)
  | [] => .ok ([], [])
  | guid :: rest =>
    let g1 := create_element_graph guid model1
    let g2 := create_element_graph guid model2
    match is_element_modified K g1 g2 guid model1 model2 check_semantics check_geometry
        check_shape use_trimesh_sampling sampling_count over_sampling with
    | .exn => .exn
    | .ok checks =>
      match classifyShared K model1 model2 check_semantics check_geometry check_shape
          use_trimesh_sampling sampling_count over_sampling rest with
      | .exn => .exn
      | .ok (mods, unmods) =>
        if checks.any id then .ok (guid :: mods, unmods) else .ok (mods, guid :: unmods)

/-- diffing.ClassifyChangesForGivenGuidList: partition the requested guid
list by existence, then classify every shared guid as modified or
unmodified; returns (Added, Deleted, modified, unmodified).  The CSV
report written on the side goes to the external reporting collaborator
and is not part of the returned value. -/
def ClassifyChangesForGivenGuidList (K : GeomKernel) (model1 model2 : IfcModel)
    (guids_list : List String)
    (check_semantics check_geometry check_shape use_trimesh_sampling : Bool)
    (sampling_count over_sampling : ℕ) :
    PyResult (List String × List String × List String × List String) :=
  let part := classifyExistence model1 model2 guids_list
  match classifyShared K model1 model2 check_semantics check_geometry check_shape
      use_trimesh_sampling sampling_count over_sampling part.2.2 with
  | .exn => .exn
  | .ok (modified, unmodified) => .ok (part.1, part.2.1, modified, unmodified)

/-- One item of the detailed change list of
diffing.analyze_element_changes. -/
inductive ChangeItem where
  | addedNode (attrs : AttrDict)
  | deletedNode (attrs : AttrDict)
  | nodeDiff (node : String) (d : DiffList)
  | geomDiff (d : DiffList)
  | shapeFlag (s : String)
deriving DecidableEq, Repr

/-- diffing.analyze_element_changes: the detailed change payload for one
entity.  A missing entity raises on `None.is_a`; an
IfcBuildingElementProxy short-circuits to the empty list.  Then, in
order: the semantic section emits added/deleted-node items and per-node
field diffs when the graphs differ; the geometric section generates both
meshes and emits one diff list when both meshes are truthy and the
descriptors differ; the shape section reuses the generated meshes when
both are truthy, regenerates them otherwise, and emits a
`"Shape OR Position Change"` flag when `are_meshes_different` is true. -/
def analyze_element_changes (K : GeomKernel) (guid : String) (model1 model2 : IfcModel)
    (use_trimesh_sampling : Bool) (sampling_count over_sampling : ℕ)
    (check_geometry check_semantic check_shape : Bool) : PyResult (List ChangeItem) :=
  match by_guid model1 guid with
  | none => .exn
  | some element =>
    if element.ifcType == "IfcBuildingElementProxy" then .ok []
    else
      let semantic_changes : List ChangeItem :=
        if check_semantic then
          let graph_v1 := create_element_graph guid model1
          let graph_v2 := create_element_graph guid model2
          if graphs_equal graph_v1 graph_v2 then []
          else
            let nodes_v1 := graph_v1.nodes.map Prod.fst
            let nodes_v2 := graph_v2.nodes.map Prod.fst
            let added_nodes := nodes_v2.filter (fun n => !nodes_v1.contains n)
            let deleted_nodes := nodes_v1.filter (fun n => !nodes_v2.contains n)
            let shared_nodes := nodes_v2.filter (fun n => nodes_v1.contains n)
            added_nodes.map (fun n => ChangeItem.addedNode (graph_v2.nodeAttrs n))
            ++ deleted_nodes.map (fun n => ChangeItem.deletedNode (graph_v1.nodeAttrs n))
            ++ shared_nodes.filterMap (fun n =>
                let d1 := graph_v1.nodeAttrs n
                let d2 := graph_v2.nodeAttrs n
                if attrDictEq d1 d2 then none
                else some (ChangeItem.nodeDiff n (K.dictdiff d1 d2)))
        else []
      let geomStage : PyResult (List ChangeItem × MeshVal × MeshVal) :=
        if check_geometry then
          match by_guid model1 guid, by_guid model2 guid with
          | some e1, some e2 =>
            let mesh1 := generate_mesh_of_element e1
            let mesh2 := generate_mesh_of_element e2
            match mesh1, mesh2 with
            | .mesh a, .mesh b =>
              if attrDictEq (geoDict a) (geoDict b) then .ok (semantic_changes, mesh1, mesh2)
              else .ok (semantic_changes
                ++ [ChangeItem.geomDiff (K.dictdiff (geoDict a) (geoDict b))], mesh1, mesh2)
            | _, _ => .ok (semantic_changes, mesh1, mesh2)
          | _, _ => .exn
        else .ok (semantic_changes, .pyNone, .pyNone)
      match geomStage with
      | .exn => .exn
      | .ok (changes, mesh1, mesh2) =>
        if check_shape then
          match mesh1, mesh2 with
          | .mesh _, .mesh _ =>
            match are_meshes_different K mesh1 mesh2 use_trimesh_sampling sampling_count
                over_sampling default_shape_tolerance with
            | .ok true => .ok (changes ++ [ChangeItem.shapeFlag "True"])
            | .ok false => .ok changes
            | .exn => .exn
          | _, _ =>
            match by_guid model1 guid, by_guid model2 guid with
            | some e1, some e2 =>
              let m1g := generate_mesh_of_element e1
              let m2g := generate_mesh_of_element e2
              match m1g, m2g with
              | .mesh _, .mesh _ =>
                match are_meshes_different K m1g m2g use_trimesh_sampling sampling_count
                    over_sampling default_shape_tolerance with
                | .ok true => .ok (changes ++ [ChangeItem.shapeFlag "True"])
                | .ok false => .ok changes
                | .exn => .exn
              | _, _ => .ok changes
            | _, _ => .exn
        else .ok changes

/-- diffing.check_if_element_moved: AABB-corner movement test.  A missing
element returns `False` (`if elem1 is None or elem2 is None`).  The mesh
guard tests `mesh1 is None or mesh2 is None` — but
`generate_mesh_of_element` signals failure with `False`, never `None`, so
the `False` sentinel slips past the guard and `False.bounds` raises
AttributeError (embedded as `.exn`).  With two real meshes: not-moved
unless both corner translations pass `np.allclose(..., atol=1e-4)` (numpy
keeps its default `rtol=1e-5`), else moved iff the Euclidean length of
the averaged translation strictly exceeds `tolerance`. -/
def check_if_element_moved (guid : String) (model1 model2 : IfcModel)
    (tolerance : ℚ) : PyResult Bool :=
  match by_guid model1 guid, by_guid model2 guid with
  | some elem1, some elem2 =>
    match generate_mesh_of_element elem1, generate_mesh_of_element elem2 with
    | .pyNone, _ => .ok false
    | _, .pyNone => .ok false
    | .mesh a, .mesh b =>
      let v_min := Vec3.sub b.bounds_min a.bounds_min
      let v_max := Vec3.sub b.bounds_max a.bounds_max
      if !np_allclose v_min v_max (1 / 100000) (1 / 10000) then .ok false
      else
        let translation := Vec3.scale (1 / 2) (Vec3.add v_min v_max)
        .ok (normGT translation tolerance)
    | _, _ => .exn
  | _, _ => .ok false

/-- Default `tolerance` of diffing.check_if_element_moved (`0.01`). -/
def default_movement_tolerance : ℚ := 1 / 100

/-! ### storey.py -/

/-- `(s or "").strip().lower()` — trimmed, case-folded name. -/
def normName (s : String) : String := s.trim.toLower

/-- The climb of storey.is_element_on_storey up the spatial hierarchy:
at the first building-storey container compare names
(case-insensitively, trimmed; a `None` container name reads as `""`);
`None` when the chain ends without reaching a storey. -/
def storeyWalk (floor : String) : List SpatialNode → Option Bool
  | [] => none
  | c :: rest =>
    if c.isStorey then some (normName (c.name.getD "") == normName floor)
    else storeyWalk floor rest

/-- storey.is_element_on_storey: `None` for a missing element or when no
building storey is reached; otherwise whether the storey's name matches
`floor`. -/
def is_element_on_storey (model : IfcModel) (guid : String) (floor : String) : Option Bool :=
  match by_guid model guid with
  | none => none
  | some e => storeyWalk floor e.containers

/-- Python truthiness of the `is_element_on_storey` result, as used by
the `if is_element_on_storey(...)` filters: only `True` is truthy; both
`False` and `None` are falsy. -/
def onStoreyTruthy (model : IfcModel) (storey guid : String) : Bool :=
  match is_element_on_storey model guid storey with
  | some true => true
  | _ => false

/-- The per-type accumulation of storey.Get_Added_Deleted_Shared_Guids_In_SingleStorey:
union of one id-set-valued function over the requested type list,
deduplicated (`list(set(...))` discards order and multiplicity). -/
def guidsAcrossTypes (f : String → Finset String) (types : List String) : Finset String :=
  types.foldl (fun acc t => acc ∪ f t) ∅

/-- storey.Get_Added_Deleted_Shared_Guids_In_SingleStorey: run the
identifier-set resolver over the type list, deduplicate, then filter the
added and shared sets by storey membership in snapshot B (`model2`) and
the deleted set by storey membership in snapshot A (`model1`). -/
def Get_Added_Deleted_Shared_Guids_In_SingleStorey (model1 model2 : IfcModel)
    (ifc_type_list : List String) (storey : String) :
    Finset String × Finset String × Finset String :=
  let added_guids := guidsAcrossTypes (get_added_element_guids model1 model2) ifc_type_list
  let deleted_guids := guidsAcrossTypes (get_deleted_element_guids model1 model2) ifc_type_list
  let shared_guids :=
    guidsAcrossTypes (fun t => (get_shared_element_guids model1 model2 t).toFinset) ifc_type_list
  (added_guids.filter (fun g => onStoreyTruthy model2 storey g = true),
   deleted_guids.filter (fun g => onStoreyTruthy model1 storey g = true),
   shared_guids.filter (fun g => onStoreyTruthy model2 storey g = true))

/-! ### Supporting lemmas -/

/-- Merge of two optional maxima (the fold underlying `listMax`). -/
def optMax : Option ℚ → Option ℚ → Option ℚ
  | none, b => b
  | some a, none => some a
  | some a, some b => some (max a b)

theorem listMax_append (l1 l2 : List ℚ) :
    listMax (l1 ++ l2) = optMax (listMax l1) (listMax l2) := by
  induction l1 with
  | nil => cases h : listMax l2 <;> simp [listMax, optMax, h]
  | cons a l ih =>
    simp only [List.cons_append, listMax, List.append_eq]
    rw [ih]
    cases h1 : listMax l <;> cases h2 : listMax l2 <;> simp [optMax, max_assoc]

theorem optMax_comm (a b : Option ℚ) : optMax a b = optMax b a := by
  cases a <;> cases b <;> simp [optMax, max_comm]

/-- `normGT` is exactly the Euclidean-length comparison
`‖v‖ > c` it stands in for. -/
theorem normGT_iff_sqrt (v : Vec3) (c : ℚ) :
    normGT v c = true ↔ (c : ℝ) < Real.sqrt ((sqNorm v : ℚ) : ℝ) := by
  have hnn : (0 : ℝ) ≤ ((sqNorm v : ℚ) : ℝ) := by
    have : (0 : ℚ) ≤ sqNorm v := by unfold sqNorm; positivity
    exact_mod_cast this
  rcases lt_or_le c 0 with hc | hc
  · constructor
    · intro _
      calc (c : ℝ) < 0 := by exact_mod_cast hc
        _ ≤ Real.sqrt _ := Real.sqrt_nonneg _
    · intro _
      simp [normGT, hc]
  · have hc' : (0 : ℝ) ≤ (c : ℝ) := by exact_mod_cast hc
    rw [show (normGT v c = true) ↔ (c < 0 ∨ c ^ 2 < sqNorm v) by simp [normGT]]
    rw [Real.lt_sqrt hc']
    constructor
    · rintro (h | h)
      · exact absurd h (not_lt.mpr hc)
      · exact_mod_cast h
    · intro h
      exact Or.inr (by exact_mod_cast h)

/-! ### Concrete fixtures for witnesses and counterexamples -/

/-- The zero vector. -/
def v0 : Vec3 := ⟨0, 0, 0⟩

/-- A concrete unit-cube-like mesh at the origin. -/
def M0 : Mesh :=
  { bounds_min := v0, bounds_max := ⟨1, 1, 1⟩, centroid := ⟨1/2, 1/2, 1/2⟩,
    extents := ⟨1, 1, 1⟩, obb_extents := ⟨1, 1, 1⟩, volume := 1, area := 6,
    is_watertight := true }

/-- A concrete kernel for witnesses: both samplers return one origin
sample, the norm is the squared Euclidean norm, the diff routine returns
nothing. -/
def trivialKernel : GeomKernel :=
  { sample_surface_even := fun _ _ => [v0],
    sample_mesh_with_grid := fun _ _ _ => [v0],
    norm := sqNorm,
    dictdiff := fun _ _ => [] }

/-- A one-entity snapshot holding guid `g` with mesh `m` (scaffolding for
closed statements over `check_if_element_moved`). -/
def mkModel1 (g : String) (m : Mesh) : IfcModel :=
  [{ globalId := g, ifcType := "IfcWall", name := none, repMesh := some m,
     psets := [], qsets := [], children := [], parents := [], containers := [] }]

/-- An entity with no Representation: mesh generation yields the `False`
sentinel. -/
def entNoRep : IfcEntity :=
  { globalId := "E0", ifcType := "IfcWall", name := none, repMesh := none,
    psets := [], qsets := [], children := [], parents := [], containers := [] }

/-- `M0` translated by (1,0,0) on both corners (pure translation). -/
def Mshift : Mesh :=
  { bounds_min := ⟨1, 0, 0⟩, bounds_max := ⟨2, 1, 1⟩, centroid := ⟨3/2, 1/2, 1/2⟩,
    extents := ⟨1, 1, 1⟩, obb_extents := ⟨1, 1, 1⟩, volume := 1, area := 6,
    is_watertight := true }

/-- `M0` with min corner moved by (1,0,0) but max corner by (1,0,1)
(shape change, not a pure translation). -/
def Mskew : Mesh :=
  { bounds_min := ⟨1, 0, 0⟩, bounds_max := ⟨2, 1, 2⟩, centroid := ⟨3/2, 1/2, 1⟩,
    extents := ⟨1, 1, 2⟩, obb_extents := ⟨1, 1, 2⟩, volume := 2, area := 10,
    is_watertight := true }

/-- `M0` moved far along x: min corner by (10,0,0), max corner by
(10.00015,0,0) — elementwise difference 1.5e-4, above the absolute
tolerance 1e-4 but inside `np.allclose`'s combined bound
`1e-4 + 1e-5·|10.00015|`. -/
def Mfar : Mesh :=
  { bounds_min := ⟨10, 0, 0⟩, bounds_max := ⟨11 + 15/100000, 1, 1⟩,
    centroid := ⟨21/2, 1/2, 1/2⟩, extents := ⟨1 + 15/100000, 1, 1⟩,
    obb_extents := ⟨1 + 15/100000, 1, 1⟩, volume := 1, area := 6,
    is_watertight := true }

/-- Min-corner translation between the meshes of one entity in two
snapshots (`v_min = min2 - min1`). -/
def vminOf (A B : Mesh) : Vec3 := Vec3.sub B.bounds_min A.bounds_min

/-- Max-corner translation (`v_max = max2 - max1`). -/
def vmaxOf (A B : Mesh) : Vec3 := Vec3.sub B.bounds_max A.bounds_max

/-! ### Claim theorems -/

/-- C1: for every pair of snapshots and every type filter, added is the
B-side id set minus the A-side one, deleted the reverse difference, and
shared the intersection returned sorted; the three parts are pairwise
disjoint and together cover exactly the union of the two id sets. -/
theorem C1_identifier_partition (model1 model2 : IfcModel) (t : String) :
    get_added_element_guids model1 model2 t = guidsOfType model2 t \ guidsOfType model1 t
    ∧ get_deleted_element_guids model1 model2 t = guidsOfType model1 t \ guidsOfType model2 t
    ∧ (get_shared_element_guids model1 model2 t).toFinset
        = guidsOfType model1 t ∩ guidsOfType model2 t
    ∧ List.Sorted (· ≤ ·) (get_shared_element_guids model1 model2 t)
    ∧ Disjoint (get_added_element_guids model1 model2 t)
        (get_deleted_element_guids model1 model2 t)
    ∧ Disjoint (get_added_element_guids model1 model2 t)
        (get_shared_element_guids model1 model2 t).toFinset
    ∧ Disjoint (get_deleted_element_guids model1 model2 t)
        (get_shared_element_guids model1 model2 t).toFinset
    ∧ get_added_element_guids model1 model2 t ∪ get_deleted_element_guids model1 model2 t
        ∪ (get_shared_element_guids model1 model2 t).toFinset
        = guidsOfType model1 t ∪ guidsOfType model2 t := by
  have hs : (get_shared_element_guids model1 model2 t).toFinset
      = guidsOfType model1 t ∩ guidsOfType model2 t := Finset.sort_toFinset _ _
  refine ⟨rfl, rfl, hs, Finset.sort_sorted _ _, ?_, ?_, ?_, ?_⟩
  · rw [Finset.disjoint_left]
    intro a ha hb
    simp only [get_added_element_guids, get_deleted_element_guids, Finset.mem_sdiff] at ha hb
    tauto
  · rw [hs, Finset.disjoint_left]
    intro a ha hb
    simp only [get_added_element_guids, Finset.mem_sdiff, Finset.mem_inter] at ha hb
    tauto
  · rw [hs, Finset.disjoint_left]
    intro a ha hb
    simp only [get_deleted_element_guids, Finset.mem_sdiff, Finset.mem_inter] at ha hb
    tauto
  · rw [hs]
    ext a
    simp only [get_added_element_guids, get_deleted_element_guids, Finset.mem_union,
      Finset.mem_sdiff, Finset.mem_inter]
    tauto

/-- C2: `are_meshes_different` returns true iff the Hausdorff distance
was returned (not absent) and strictly exceeds the tolerance; an absent
distance — in particular whenever either mesh argument is falsy, i.e.
the no-geometry sentinel — yields false; the default shape tolerance is
0.01. -/
theorem C2_are_meshes_different_iff (K : GeomKernel) (mesh1 mesh2 : MeshVal)
    (uts : Bool) (sc os : ℕ) (tol : ℚ) :
    (are_meshes_different K mesh1 mesh2 uts sc os tol = .ok true
      ↔ ∃ d, hausdorff_distance_between_meshes K mesh1 mesh2 sc os uts = .ok (some d)
          ∧ tol < d)
    ∧ (hausdorff_distance_between_meshes K mesh1 mesh2 sc os uts = .ok none
        → are_meshes_different K mesh1 mesh2 uts sc os tol = .ok false)
    ∧ (mesh1.truthy = false ∨ mesh2.truthy = false
        → hausdorff_distance_between_meshes K mesh1 mesh2 sc os uts = .ok none
          ∧ are_meshes_different K mesh1 mesh2 uts sc os tol = .ok false)
    ∧ default_shape_tolerance = 1 / 100 := by
  refine ⟨?_, ?_, ?_, rfl⟩
  · unfold are_meshes_different
    cases h : hausdorff_distance_between_meshes K mesh1 mesh2 sc os uts with
    | exn => simp
    | ok o =>
      cases o with
      | none => simp
      | some d =>
        simp only [PyResult.ok.injEq]
        constructor
        · intro hd
          exact ⟨d, rfl, by simpa using hd⟩
        · rintro ⟨d', hd', hlt⟩
          cases hd'
          simpa using hlt
  · intro h
    unfold are_meshes_different
    rw [h]
  · intro h
    have habs : hausdorff_distance_between_meshes K mesh1 mesh2 sc os uts = .ok none := by
      cases mesh1 <;> cases mesh2 <;>
        simp_all [MeshVal.truthy, hausdorff_distance_between_meshes]
    refine ⟨habs, ?_⟩
    unfold are_meshes_different
    rw [habs]

/-- C2 witness: the sentinel `False` on either side makes
`are_meshes_different` return false. -/
theorem C2_witness :
    hausdorff_distance_between_meshes trivialKernel .pyFalse .pyFalse 5 2 true = .ok none
    ∧ are_meshes_different trivialKernel .pyFalse .pyFalse true 5 2 (1 / 100) = .ok false :=
  (C2_are_meshes_different_iff trivialKernel .pyFalse .pyFalse true 5 2 (1 / 100)).2.2.1
    (Or.inl rfl)

/-- C8: the Hausdorff distance is symmetric in its two mesh arguments,
for either sampling strategy and any sampling parameters — the two
directed nearest-neighbour loops merely swap, and with them the list
whose maximum is returned; even the exceptional and absent cases agree. -/
theorem C8_hausdorff_symmetric (K : GeomKernel) (A B : MeshVal) (sc os : ℕ) (uts : Bool) :
    hausdorff_distance_between_meshes K A B sc os uts
      = hausdorff_distance_between_meshes K B A sc os uts := by
  cases A with
  | pyNone => cases B <;> rfl
  | pyFalse => cases B <;> rfl
  | mesh m1 =>
    cases B with
    | pyNone => rfl
    | pyFalse => rfl
    | mesh m2 =>
      unfold hausdorff_distance_between_meshes
      cases h1 : dirDists K (if uts then K.sample_surface_even m1 sc
          else K.sample_mesh_with_grid m1 sc os)
          (if uts then K.sample_surface_even m2 sc else K.sample_mesh_with_grid m2 sc os) with
      | none =>
        cases h2 : dirDists K (if uts then K.sample_surface_even m2 sc
            else K.sample_mesh_with_grid m2 sc os)
            (if uts then K.sample_surface_even m1 sc
              else K.sample_mesh_with_grid m1 sc os) <;>
          simp [h1, h2]
      | some d1 =>
        cases h2 : dirDists K (if uts then K.sample_surface_even m2 sc
            else K.sample_mesh_with_grid m2 sc os)
            (if uts then K.sample_surface_even m1 sc
              else K.sample_mesh_with_grid m1 sc os) with
        | none => simp [h1, h2]
        | some d2 =>
          simp only [h1, h2]
          rw [listMax_append, listMax_append, optMax_comm]

/-- C3: the claim says a missing mesh makes the Movement Detector report
false, but the code's guard tests `mesh1 is None` while the generator
returns the `False` sentinel, so `False.bounds` raises AttributeError:
with the same representation-less entity in both snapshots,
`check_if_element_moved` raises instead of returning false. -/
theorem C3_missing_mesh_raises :
    generate_mesh_of_element entNoRep = .pyFalse
    ∧ check_if_element_moved "E0" [entNoRep] [entNoRep] (1 / 100) = .exn := by
  constructor <;> rfl

/-- The Movement Detector on two one-entity snapshots, in closed form:
not-moved unless the corner translations pass `np.allclose` (absolute
tolerance 1e-4, numpy default relative tolerance 1e-5), else the strict
Euclidean-length comparison of the averaged translation. -/
theorem check_moved_mkModel1 (A B : Mesh) (g : String) (tol : ℚ) :
    check_if_element_moved g (mkModel1 g A) (mkModel1 g B) tol
      = .ok (np_allclose (vminOf A B) (vmaxOf A B) (1 / 100000) (1 / 10000)
          && normGT (Vec3.scale (1 / 2) (Vec3.add (vminOf A B) (vmaxOf A B))) tol) := by
  have hA : by_guid (mkModel1 g A) g
      = some { globalId := g, ifcType := "IfcWall", name := none, repMesh := some A,
               psets := [], qsets := [], children := [], parents := [],
               containers := [] } := by
    simp [by_guid, mkModel1, List.find?]
  have hB : by_guid (mkModel1 g B) g
      = some { globalId := g, ifcType := "IfcWall", name := none, repMesh := some B,
               psets := [], qsets := [], children := [], parents := [],
               containers := [] } := by
    simp [by_guid, mkModel1, List.find?]
  unfold check_if_element_moved
  rw [hA, hB]
  simp only [generate_mesh_of_element, vminOf, vmaxOf]
  cases np_allclose (Vec3.sub B.bounds_min A.bounds_min)
      (Vec3.sub B.bounds_max A.bounds_max) (1 / 100000) (1 / 10000) <;> simp

/-- C4 counterexample: the corner translations (10,0,0) and
(10.00015,0,0) are NOT elementwise approximately equal at absolute
tolerance 1e-4 (difference 1.5e-4), yet the detector reports moved =
true — `np.allclose` keeps numpy's default relative tolerance 1e-5, and
1.5e-4 ≤ 1e-4 + 1e-5·10.00015. -/
theorem C4_counterexample :
    spec_approx_eq_abs (vminOf M0 Mfar) (vmaxOf M0 Mfar) (1 / 10000) = false
    ∧ check_if_element_moved "W" (mkModel1 "W" M0) (mkModel1 "W" Mfar) (1 / 100)
        = .ok true := by
  constructor
  · simp only [spec_approx_eq_abs, vminOf, vmaxOf, M0, Mfar, v0, Vec3.sub]
    norm_num
    rw [abs_of_nonneg (by norm_num : (0 : ℚ) ≤ 3 / 20000)]
    norm_num
  · rw [check_moved_mkModel1]
    simp only [np_allclose, normGT, vminOf, vmaxOf, M0, Mfar, v0, Vec3.sub, Vec3.add,
      Vec3.scale, sqNorm, PyResult.ok.injEq]
    norm_num
    rw [abs_of_nonneg (by norm_num : (0 : ℚ) ≤ 3 / 20000),
      abs_of_nonneg (by norm_num : (0 : ℚ) ≤ 200003 / 20000)]
    norm_num

/-- C4 (amended): with both meshes present, the detector reports
not-moved unless the two corner translations pass
`np.allclose(v_min, v_max, atol=1e-4)` — absolute tolerance 1e-4 plus
numpy's default relative tolerance 1e-5·|v_max component| — and
otherwise reports moved iff the Euclidean length of the averaged
translation strictly exceeds the movement tolerance (default 0.01).
Both corners translating by (1,0,0) yields moved = true; min by (1,0,0)
and max by (1,0,1) yields moved = false. -/
theorem C4_amended_movement (A B : Mesh) (g : String) (tol : ℚ) :
    check_if_element_moved g (mkModel1 g A) (mkModel1 g B) tol
      = .ok (np_allclose (vminOf A B) (vmaxOf A B) (1 / 100000) (1 / 10000)
          && normGT (Vec3.scale (1 / 2) (Vec3.add (vminOf A B) (vmaxOf A B))) tol)
    ∧ check_if_element_moved "W" (mkModel1 "W" M0) (mkModel1 "W" Mshift) (1 / 100)
        = .ok true
    ∧ check_if_element_moved "W" (mkModel1 "W" M0) (mkModel1 "W" Mskew) (1 / 100)
        = .ok false := by
  refine ⟨check_moved_mkModel1 A B g tol, ?_, ?_⟩
  · rw [check_moved_mkModel1]
    simp only [np_allclose, normGT, vminOf, vmaxOf, M0, Mshift, v0, Vec3.sub, Vec3.add,
      Vec3.scale, sqNorm, PyResult.ok.injEq]
    norm_num
  · rw [check_moved_mkModel1]
    simp only [np_allclose, normGT, vminOf, vmaxOf, M0, Mskew, v0, Vec3.sub, Vec3.add,
      Vec3.scale, sqNorm, PyResult.ok.injEq]
    norm_num

/-- C5: for an identifier absent from the snapshot the Semantic Graph
Builder returns the empty graph — no nodes, no edges — rather than
failing. -/
theorem C5_missing_entity_empty_graph (model : IfcModel) (guid : String)
    (h : by_guid model guid = none) :
    create_element_graph guid model = DiGraph.empty
    ∧ (create_element_graph guid model).nodes = []
    ∧ (create_element_graph guid model).edges = [] := by
  have he : create_element_graph guid model = DiGraph.empty := by
    unfold create_element_graph
    rw [h]
  exact ⟨he, by rw [he]; rfl, by rw [he]; rfl⟩

/-- C5 witness: a lookup in the empty snapshot is absent and the builder
returns the empty graph. -/
theorem C5_witness :
    create_element_graph "missing" [] = DiGraph.empty
    ∧ (create_element_graph "missing" []).nodes = []
    ∧ (create_element_graph "missing" []).edges = [] :=
  C5_missing_entity_empty_graph [] "missing" rfl

/-- C10 (implicit): with the shape check enabled and the geometric check
disabled, the mesh variables are still Python `None` when the shape
check runs, `hausdorff_distance_between_meshes` returns `None`, and the
shape entry of the modification vector is false for every entity —
regardless of actual shape differences. -/
theorem C10_shape_without_geometry (K : GeomKernel) (g1 g2 : DiGraph) (guid : String)
    (model1 model2 : IfcModel) (cs uts : Bool) (sc os : ℕ) :
    is_element_modified K g1 g2 guid model1 model2 cs false true uts sc os
      = .ok ((if cs then [!graphs_equal g1 g2] else []) ++ [false]) := by
  cases cs <;> rfl

/-- With every check disabled the modification test touches nothing and
returns the empty vector. -/
theorem is_element_modified_all_disabled (K : GeomKernel) (g1 g2 : DiGraph) (guid : String)
    (model1 model2 : IfcModel) (uts : Bool) (sc os : ℕ) :
    is_element_modified K g1 g2 guid model1 model2 false false false uts sc os = .ok [] :=
  rfl

/-- With every check disabled the shared-guid loop marks every guid
unmodified, in order. -/
theorem classifyShared_all_disabled (K : GeomKernel) (model1 model2 : IfcModel)
    (uts : Bool) (sc os : ℕ) (l : List String) :
    classifyShared K model1 model2 false false false uts sc os l = .ok ([], l) := by
  induction l with
  | nil => rfl
  | cons g rest ih => simp [classifyShared, is_element_modified_all_disabled, ih]

/-- C6: each enabled check appends exactly one boolean to the
modification vector, in the fixed order semantic, geometric, shape (the
semantic entry being the graph inequality); with all three checks
disabled the vector is empty and every shared entity is classified
Unmodified by the change classifier, regardless of actual differences. -/
theorem C6_modification_vector (K : GeomKernel) (g1 g2 : DiGraph) (guid : String)
    (model1 model2 : IfcModel) (cs gc sh uts : Bool) (sc os : ℕ) :
    (∀ l, is_element_modified K g1 g2 guid model1 model2 cs gc sh uts sc os = .ok l →
      ∃ b2 b3, l = (if cs then [!graphs_equal g1 g2] else [])
        ++ (if gc then [b2] else []) ++ (if sh then [b3] else []))
    ∧ is_element_modified K g1 g2 guid model1 model2 false false false uts sc os = .ok []
    ∧ (∀ guids, ClassifyChangesForGivenGuidList K model1 model2 guids false false false
        uts sc os
        = .ok ((classifyExistence model1 model2 guids).1,
               (classifyExistence model1 model2 guids).2.1, [],
               (classifyExistence model1 model2 guids).2.2)) := by
  refine ⟨?_, rfl, ?_⟩
  · intro l h
    unfold is_element_modified at h
    cases gc with
    | false =>
      cases sh with
      | false =>
        simp only [Bool.false_eq_true, if_false] at h
        cases h
        exact ⟨true, true, by simp⟩
      | true =>
        simp only [Bool.false_eq_true, if_false, if_true,
          show are_meshes_different K .pyNone .pyNone uts sc os default_shape_tolerance
            = .ok false from rfl] at h
        cases h
        exact ⟨true, false, by simp⟩
    | true =>
      simp only [if_true] at h
      cases hE1 : by_guid model1 guid with
      | none => rw [hE1] at h; simp at h
      | some e1 =>
        cases hE2 : by_guid model2 guid with
        | none => rw [hE1, hE2] at h; simp at h
        | some e2 =>
          rw [hE1, hE2] at h
          dsimp only at h
          cases hg : geomCheckStep (generate_mesh_of_element e1)
              (generate_mesh_of_element e2) with
          | exn => rw [hg] at h; simp at h
          | ok b =>
            rw [hg] at h
            cases sh with
            | false =>
              simp only [Bool.false_eq_true, if_false] at h
              cases h
              exact ⟨b, true, by simp⟩
            | true =>
              simp only [if_true] at h
              cases ha : are_meshes_different K (generate_mesh_of_element e1)
                  (generate_mesh_of_element e2) uts sc os default_shape_tolerance with
              | exn => rw [ha] at h; simp at h
              | ok b3 =>
                rw [ha] at h
                cases h
                exact ⟨b, b3, by simp⟩
  · intro guids
    simp [ClassifyChangesForGivenGuidList, classifyShared_all_disabled]

/-- C6 witness: concrete evaluation of the modification vector with the
semantic and shape checks enabled and the geometric check disabled. -/
theorem C6_witness :
    ∃ b2 b3, ([false, false] : List Bool)
      = (if true then [!graphs_equal DiGraph.empty DiGraph.empty] else [])
        ++ (if false then [b2] else []) ++ (if true then [b3] else []) :=
  (C6_modification_vector trivialKernel DiGraph.empty DiGraph.empty "E" [] [] true false true
    true 5 2).1 [false, false] rfl

/-- A concrete proxy-typed entity. -/
def entProxy : IfcEntity :=
  { globalId := "P0", ifcType := "IfcBuildingElementProxy", name := none, repMesh := none,
    psets := [], qsets := [], children := [], parents := [], containers := [] }

/-- C7: for an entity of the generic proxy fallback type
(IfcBuildingElementProxy) the detailed-payload builder returns the empty
change list, for every combination of enabled checks and regardless of
actual differences. -/
theorem C7_proxy_empty_payload (K : GeomKernel) (guid : String) (model1 model2 : IfcModel)
    (e : IfcEntity) (uts : Bool) (sc os : ℕ) (cg csem csh : Bool)
    (h1 : by_guid model1 guid = some e)
    (h2 : e.ifcType = "IfcBuildingElementProxy") :
    analyze_element_changes K guid model1 model2 uts sc os cg csem csh = .ok [] := by
  unfold analyze_element_changes
  rw [h1]
  simp [h2]

/-- C7 witness: a proxy entity yields the empty payload with every check
enabled. -/
theorem C7_witness :
    analyze_element_changes trivialKernel "P0" [entProxy] [entProxy] true 5 2 true true true
      = .ok [] :=
  C7_proxy_empty_payload trivialKernel "P0" [entProxy] [entProxy] entProxy true 5 2
    true true true rfl rfl

/-- The storey filter keeps a guid iff the membership test returned
Python `True` (both `False` and `None` are falsy). -/
theorem onStoreyTruthy_iff (model : IfcModel) (storey g : String) :
    onStoreyTruthy model storey g = true ↔ is_element_on_storey model g storey = some true := by
  unfold onStoreyTruthy
  cases h : is_element_on_storey model g storey with
  | none => simp
  | some b => cases b <;> simp

/-- C9: the storey-scoped partition filters the added set by storey
membership in snapshot B, the deleted set in snapshot A and the shared
set in snapshot B; entities whose storey membership is unknown are
excluded from all three filtered sets. -/
theorem C9_storey_scoped_partition (model1 model2 : IfcModel) (types : List String)
    (storey g : String) :
    (g ∈ (Get_Added_Deleted_Shared_Guids_In_SingleStorey model1 model2 types storey).1
      ↔ g ∈ guidsAcrossTypes (get_added_element_guids model1 model2) types
        ∧ is_element_on_storey model2 g storey = some true)
    ∧ (g ∈ (Get_Added_Deleted_Shared_Guids_In_SingleStorey model1 model2 types storey).2.1
      ↔ g ∈ guidsAcrossTypes (get_deleted_element_guids model1 model2) types
        ∧ is_element_on_storey model1 g storey = some true)
    ∧ (g ∈ (Get_Added_Deleted_Shared_Guids_In_SingleStorey model1 model2 types storey).2.2
      ↔ g ∈ guidsAcrossTypes
          (fun t => (get_shared_element_guids model1 model2 t).toFinset) types
        ∧ is_element_on_storey model2 g storey = some true)
    ∧ (is_element_on_storey model2 g storey = none
        → g ∉ (Get_Added_Deleted_Shared_Guids_In_SingleStorey model1 model2 types storey).1
          ∧ g ∉ (Get_Added_Deleted_Shared_Guids_In_SingleStorey model1 model2 types storey).2.2)
    ∧ (is_element_on_storey model1 g storey = none
        → g ∉ (Get_Added_Deleted_Shared_Guids_In_SingleStorey model1 model2 types storey).2.1) := by
  have hfilt : ∀ (s : Finset String) (m : IfcModel),
      (g ∈ s.filter (fun x => onStoreyTruthy m storey x = true))
        ↔ (g ∈ s ∧ is_element_on_storey m g storey = some true) := by
    intro s m
    rw [Finset.mem_filter, onStoreyTruthy_iff]
  refine ⟨hfilt _ _, hfilt _ _, hfilt _ _, ?_, ?_⟩
  · intro hnone
    constructor <;> intro hmem
    · have h2 := ((hfilt _ _).1 hmem).2
      rw [h2] at hnone
      exact Option.noConfusion hnone
    · have h2 := ((hfilt _ _).1 hmem).2
      rw [h2] at hnone
      exact Option.noConfusion hnone
  · intro hnone hmem
    have h2 := ((hfilt _ _).1 hmem).2
    rw [h2] at hnone
    exact Option.noConfusion hnone

/-- C9 witness: an identifier with unknown storey membership is excluded
from the filtered added and shared sets. -/
theorem C9_witness :
    "X" ∉ (Get_Added_Deleted_Shared_Guids_In_SingleStorey [] [] [] "L").1
    ∧ "X" ∉ (Get_Added_Deleted_Shared_Guids_In_SingleStorey [] [] [] "L").2.2 :=
  (C9_storey_scoped_partition [] [] [] "L" "X").2.2.2.1 rfl

end IFCCompare
